import Mathlib

/-!
Shallow embedding of `src/components/WalletConnector.tsx` (blinklabs-io/dns-frontend).

The component's effectful React code is modelled by explicit state passing:
JavaScript promises that may reject are modelled as `Except String`, where the
`String` is the rejection's `message`; provider calls are oracles supplied as
function arguments (indexed by call count where a call site can be reached more
than once); the host callbacks (`showError`, `onConnect`, `onDisconnect`,
`navigateOnConnect`) are recorded in an `Effects` log.  Timestamps (`Date.now()`)
are natural numbers supplied by the caller.
-/

namespace WalletConnector

/-- Does `needle` occur at the start of the character list?  Models the prefix
check underlying JavaScript `String.prototype.includes`. -/
def charsStartWith : List Char → List Char → Bool
  | [], _ => true
  | _ :: _, [] => false
  | p :: ps, c :: cs => p == c && charsStartWith ps cs

/-- Does `needle` occur anywhere in `hay`?  Second half of the model of
JavaScript `String.prototype.includes`. -/
def listContainsChars : List Char → List Char → Bool
  | [], needle => needle.isEmpty
  | c :: rest, needle => charsStartWith needle (c :: rest) || listContainsChars rest needle

/-- Model of JavaScript `s.includes(pat)`. -/
def strContains (s pat : String) : Bool :=
  listContainsChars s.data pat.data

/-- ASCII lower-casing of one character, as JavaScript `toLowerCase` acts on the
ASCII keywords the component scans for. -/
def lowerChar (c : Char) : Char :=
  if 65 ≤ c.toNat ∧ c.toNat ≤ 90 then Char.ofNat (c.toNat + 32) else c

/-- Model of JavaScript `s.toLowerCase()` (ASCII fragment, which is all the
component's keyword scan needs). -/
def lowerString (s : String) : String :=
  ⟨s.data.map lowerChar⟩

/-- The test applied to a rejection of `getRewardAddresses` in the retry loop of
`onConnectWallet`: `error.message.includes("account changed") ||
error.message.includes("Account changed")`.  Note the two literal casings: this
is NOT a case-insensitive test. -/
def accountChangedMsg (m : String) : Bool :=
  strContains m "account changed" || strContains m "Account changed"

/-- Message built in `onConnectWallet` / `onConnectError` for a provider absent
from the registry (or reported absent by the widget). -/
def notInstalledMsg (name : String) : String :=
  name ++ " wallet is not installed. Please install it from the official website."

/-- `networkType === NetworkType.MAINNET ? "Mainnet" : "Testnet"`. -/
def networkLabel (mainnet : Bool) : String :=
  if mainnet then "Mainnet" else "Testnet"

/-- Network-mismatch message built inside `onConnectWallet` (the internal
negotiation path). -/
def wrongNetworkMsgInternal (mainnet : Bool) : String :=
  "Network mismatch: This app requires " ++ networkLabel mainnet ++
    ". Please switch your wallet network."

/-- Network-mismatch message built inside `onConnectError` (the external
widget's failure callback path). -/
def wrongNetworkMsgWidget (mainnet : Bool) : String :=
  "Network mismatch: This app requires " ++ networkLabel mainnet ++
    ". Please switch your wallet to " ++ networkLabel mainnet ++ " and try again."

/-- `"Error connecting to <name>: <msg>"` — used by the catch block of
`onConnectWallet` (for `connectionError`) and by the generic branch of
`onConnectError` (for `showErrorOnce`). -/
def connectErrMsg (name msg : String) : String :=
  "Error connecting to " ++ name ++ ": " ++ msg

/-- `"Error with <name>: <msg>"` — recorded in `connectionError` by the generic
branch of `onConnectError`. -/
def widgetGenericRecorded (name msg : String) : String :=
  "Error with " ++ name ++ ": " ++ msg

/-- `stakeAddresses?.[0] || null`: first element of the list, with JavaScript
falsiness — an empty first string also yields `null`. -/
def firstOrNone : List String → Option String
  | [] => none
  | a :: _ => if a = "" then none else some a

/-!  ## ErrorThrottle: `showErrorOnce` and `lastErrorRef`  -/

/-- Pure core of `showErrorOnce`: given the incoming message, the current clock
value (`Date.now()`), and the remembered `lastErrorRef.current`, return whether
`showError` fires and the new value of the ref.  Mirrors
`if (!lastError || lastError.message !== message || now - lastError.timestamp > 1000)`. -/
def showErrorOnce (message : String) (now : Nat) (lastErrorRef : Option (String × Nat)) :
    Bool × Option (String × Nat) :=
  match lastErrorRef with
  | none => (true, some (message, now))
  | some (m, ts) =>
      if m ≠ message ∨ now - ts > 1000 then (true, some (message, now))
      else (false, some (m, ts))

/-- Transcription of the claim's wording for the throttle's emit condition:
there is no remembered pair, or the remembered message differs, or strictly
more than 1000 ms have elapsed since the remembered timestamp. -/
def reportShouldEmit (message : String) (now : Nat) (lastErrorRef : Option (String × Nat)) :
    Prop :=
  match lastErrorRef with
  | none => True
  | some (m, ts) => m ≠ message ∨ now - ts > 1000

/-!  ## RewardAddressFetcher: the retry loop of `onConnectWallet`  -/

/-- Result of the reward-address retry loop, with call counts.
`outcome = .error m` means the exception `m` propagates out of the loop to the
outer catch block of `onConnectWallet`. -/
structure FetchResult where
  outcome : Except String (List String)
  origQueries : Nat
  reEnables : Nat
  freshQueries : Nat
  deriving Repr

/-- The `while (retries > 0)` loop of `onConnectWallet`.  `q n` is the result of
the (n+1)-th `getRewardAddresses` call on the original handle; `re` is the
result of the re-enable path: `.error m` if the second `enable()` rejects,
`.ok r` if it resolves and the single query on the fresh handle returns `r`.
The fuel argument is the current value of `retries`; `attempt` counts queries
already made on the original handle. -/
def fetchGo (q : Nat → Except String (List String))
    (re : Except String (Except String (List String))) :
    Nat → Nat → FetchResult
  | 0, attempt => ⟨.ok [], attempt, 0, 0⟩
  | r + 1, attempt =>
      match q attempt with
      | .ok addrs => ⟨.ok addrs, attempt + 1, 0, 0⟩
      | .error msg =>
          if accountChangedMsg msg then
            if r > 0 then
              fetchGo q re r (attempt + 1)
            else
              match re with
              | .error m => ⟨.error m, attempt + 1, 1, 0⟩
              | .ok (.error m) => ⟨.error m, attempt + 1, 1, 1⟩
              | .ok (.ok addrs) => ⟨.ok addrs, attempt + 1, 1, 1⟩
          else
            ⟨.error msg, attempt + 1, 0, 0⟩

/-- The retry loop entered with `let retries = 3`. -/
def rewardAddressFetch (q : Nat → Except String (List String))
    (re : Except String (Except String (List String))) : FetchResult :=
  fetchGo q re 3 0

/-!  ## The component: props, state, effects, handlers  -/

/-- Model of the `CardanoWalletApi` handle as far as the component consults it.
`getRewardAddresses` is indexed by the number of prior calls on this handle,
since the retry loop calls it repeatedly.  `tag` models JavaScript object
identity, distinguishing the handle of the first `enable()` from a fresh one.
The remaining capability operations (`getChangeAddress`, `signTx`, …) are
pass-through and never invoked by the component, so they are not modelled. -/
structure CardanoWalletApi where
  getNetworkId : Except String Nat
  getRewardAddresses : Nat → Except String (List String)
  tag : Nat

/-- Model of one `window.cardano[name]` registry entry; the component only ever
calls `enable()`, indexed by call count (0 = first enable, 1 = the re-enable in
the retry loop's exhausted branch). -/
structure CardanoProvider where
  enable : Nat → Except String CardanoWalletApi

/-- Model of `window.cardano`: `none` covers both a missing `window.cardano`
and a missing key (`!window.cardano || !window.cardano[walletName]`). -/
def Registry := String → Option CardanoProvider

/-- The `WalletState` record of the component. -/
structure WalletState where
  isConnected : Bool
  walletName : Option String
  walletApi : Option CardanoWalletApi
  stakeAddress : Option String

/-- All the component's pieces of React state, plus the `lastErrorRef` used by
the throttle. -/
structure ComponentState where
  walletState : WalletState
  showWalletList : Bool
  connectionError : Option String
  isConnecting : Bool
  pendingWallet : Option String
  lastErrorRef : Option (String × Nat)

/-- Log of the host-callback invocations performed by a run, plus counts of the
provider calls made (`enable()` and `getRewardAddresses()`).  `onConnectCalls`
records `(walletName, walletApi.tag, stakeAddress)`. -/
structure Effects where
  showErrorCalls : List String
  onConnectCalls : List (String × Nat × Option String)
  onDisconnectCalls : Nat
  navigateCalls : List String
  enableCalls : Nat
  rewardQueryCalls : Nat

/-- The props that affect the modelled logic.  `onConnectSet` etc. record
whether the optional callback props were supplied (`if (onConnect) …`). -/
structure ConnectorProps where
  mainnet : Bool
  onConnectSet : Bool
  onDisconnectSet : Bool
  navigateSet : Bool
  dropdownLayout : Bool
  initiallyOpen : Bool

/-- `showErrorOnce` as the component runs it: reads and writes
`lastErrorRef.current` in the state, appends to the `showError` log when the
throttle admits the message. -/
def showErrorOnceM (message : String) (now : Nat) (s : ComponentState) (fx : Effects) :
    ComponentState × Effects :=
  let r := showErrorOnce message now s.lastErrorRef
  ({ s with lastErrorRef := r.2 },
   if r.1 then { fx with showErrorCalls := fx.showErrorCalls ++ [message] } else fx)

/-- `openWalletList`: clears the error and pending marker, then toggles the
list in dropdown layout or opens it in flex layout. -/
def openWalletList (props : ConnectorProps) (s : ComponentState) : ComponentState :=
  let s := { s with connectionError := none, pendingWallet := none }
  if props.dropdownLayout then { s with showWalletList := !s.showWalletList }
  else { s with showWalletList := true }

/-- `closeWalletList`: no-op while connecting, otherwise closes the list and
clears the error state. -/
def closeWalletList (s : ComponentState) : ComponentState :=
  if s.isConnecting then s
  else { s with showWalletList := false, connectionError := none, pendingWallet := none }

/-- The `handleClickOutside` listener, registered only in dropdown layout. -/
def handleClickOutside (props : ConnectorProps) (s : ComponentState) : ComponentState :=
  if props.dropdownLayout then { s with showWalletList := false, connectionError := none }
  else s

/-- `handleSuccessfulConnect`: stores the connected state and notifies the host
(`onConnect` if supplied, else `navigateOnConnect("/account")` if supplied). -/
def handleSuccessfulConnect (props : ConnectorProps) (name : String)
    (api : CardanoWalletApi) (stakeAddress : Option String)
    (s : ComponentState) (fx : Effects) : ComponentState × Effects :=
  ({ s with connectionError := none, showWalletList := false,
            walletState := ⟨true, some name, some api, stakeAddress⟩ },
   if props.onConnectSet then
     { fx with onConnectCalls := fx.onConnectCalls ++ [(name, api.tag, stakeAddress)] }
   else if props.navigateSet then
     { fx with navigateCalls := fx.navigateCalls ++ ["/account"] }
   else fx)

/-- `handleDisconnect`: clears the wallet state and, when the `onDisconnect`
prop was supplied, invokes it — note the call is unconditional on the previous
connection status. -/
def handleDisconnect (props : ConnectorProps) (s : ComponentState) (fx : Effects) :
    ComponentState × Effects :=
  ({ s with walletState := ⟨false, none, none, none⟩ },
   if props.onDisconnectSet then
     { fx with onDisconnectCalls := fx.onDisconnectCalls + 1 }
   else fx)

/-- The re-enable path of the retry loop, packaged for `fetchGo`: the result of
`window.cardano[walletName].enable()` (second call) and, when that resolves, of
the single `getRewardAddresses()` on the fresh handle. -/
def reEnableOf (provider : CardanoProvider) : Except String (Except String (List String)) :=
  match provider.enable 1 with
  | .error m => .error m
  | .ok fresh => .ok (fresh.getRewardAddresses 0)

/-- `onConnectWallet`: the full negotiation.  `now` is the clock value used for
any `showErrorOnce` call during this run.  The `finally` block's
`setIsConnecting(false); setPendingWallet(null)` is folded into each exit. -/
def onConnectWallet (props : ConnectorProps) (registry : Registry)
    (walletName : String) (now : Nat) (s : ComponentState) (fx : Effects) :
    ComponentState × Effects :=
  let s1 : ComponentState :=
    { s with isConnecting := true, connectionError := none, pendingWallet := some walletName }
  match registry walletName with
  | none =>
      let r := showErrorOnceM (notInstalledMsg walletName) now s1 fx
      ({ r.1 with isConnecting := false, pendingWallet := none }, r.2)
  | some provider =>
      let fx1 : Effects := { fx with enableCalls := fx.enableCalls + 1 }
      match provider.enable 0 with
      | .error msg =>
          ({ s1 with connectionError := some (connectErrMsg walletName msg),
                     isConnecting := false, pendingWallet := none }, fx1)
      | .ok walletApi =>
          match walletApi.getNetworkId with
          | .error msg =>
              ({ s1 with connectionError := some (connectErrMsg walletName msg),
                         isConnecting := false, pendingWallet := none }, fx1)
          | .ok walletNetworkId =>
              let expectedNetworkId := if props.mainnet then 1 else 0
              if walletNetworkId ≠ expectedNetworkId then
                let r := showErrorOnceM (wrongNetworkMsgInternal props.mainnet) now s1 fx1
                ({ r.1 with isConnecting := false, pendingWallet := none }, r.2)
              else
                let fr := rewardAddressFetch walletApi.getRewardAddresses (reEnableOf provider)
                let fx2 : Effects :=
                  { fx1 with enableCalls := fx1.enableCalls + fr.reEnables,
                             rewardQueryCalls :=
                               fx1.rewardQueryCalls + fr.origQueries + fr.freshQueries }
                match fr.outcome with
                | .error msg =>
                    ({ s1 with connectionError := some (connectErrMsg walletName msg),
                               isConnecting := false, pendingWallet := none }, fx2)
                | .ok stakeAddresses =>
                    let stakeAddress := firstOrNone stakeAddresses
                    let r := handleSuccessfulConnect props walletName walletApi stakeAddress s1 fx2
                    ({ r.1 with isConnecting := false, pendingWallet := none }, r.2)

/-- `onConnectError`: the external widget's failure callback, classifying the
raw message on a lower-cased scan. -/
def onConnectError (props : ConnectorProps) (walletName : String) (message : String)
    (now : Nat) (s : ComponentState) (fx : Effects) : ComponentState × Effects :=
  let errorMessage := lowerString message
  if strContains errorMessage "not installed" || strContains errorMessage "not found" ||
      strContains errorMessage "not available" || strContains errorMessage "no wallet" then
    let r := showErrorOnceM (notInstalledMsg walletName) now s fx
    ({ r.1 with isConnecting := false, pendingWallet := none }, r.2)
  else if strContains errorMessage "wrong network" || strContains errorMessage "network type" ||
      strContains errorMessage "mainnet" || strContains errorMessage "testnet" then
    let m := wrongNetworkMsgWidget props.mainnet
    let r := showErrorOnceM m now s fx
    ({ r.1 with connectionError := some m, isConnecting := false, pendingWallet := none }, r.2)
  else
    let r := showErrorOnceM (connectErrMsg walletName message) now s fx
    ({ r.1 with connectionError := some (widgetGenericRecorded walletName message),
                isConnecting := false, pendingWallet := none }, r.2)

/-- The component's externally triggerable events. -/
inductive Action where
  | openList
  | closeList
  | clickOutside
  | connect (walletName : String) (now : Nat)
  | widgetError (walletName message : String) (now : Nat)
  | disconnect

/-- One event-loop step of the component. -/
def stepA (props : ConnectorProps) (registry : Registry) (a : Action)
    (s : ComponentState) (fx : Effects) : ComponentState × Effects :=
  match a with
  | .openList => (openWalletList props s, fx)
  | .closeList => (closeWalletList s, fx)
  | .clickOutside => (handleClickOutside props s, fx)
  | .connect n t => onConnectWallet props registry n t s fx
  | .widgetError n m t => onConnectError props n m t s fx
  | .disconnect => handleDisconnect props s fx

/-- The component's initial state (`useState` initialisers). -/
def initialState (props : ConnectorProps) : ComponentState :=
  ⟨⟨false, none, none, none⟩, props.initiallyOpen, none, false, none, none⟩

/-- Empty effects log. -/
def fx0 : Effects := ⟨[], [], 0, [], 0, 0⟩

/-- The session-state invariant the code actually maintains: the capability
handle and the wallet name are present exactly when connected, and a stake
address is only ever present while connected (it may be absent when connected). -/
def sessionInv (w : WalletState) : Prop :=
  (w.isConnected = true ↔ (w.walletApi.isSome = true ∧ w.walletName.isSome = true))
  ∧ (w.stakeAddress.isSome = true → w.isConnected = true)

/-!  ## Concrete fixtures used by the closed theorems  -/

/-- Props as in the repository's `App.tsx` usage: testnet, dropdown layout,
`onConnect`/`onDisconnect` supplied. -/
def propsD : ConnectorProps := ⟨false, true, true, false, true, false⟩

/-- A provider whose handle is on the expected network and reports an empty
reward-address list. -/
def emptyAddrProvider : CardanoProvider :=
  ⟨fun _ => .ok ⟨.ok 0, fun _ => .ok [], 0⟩⟩

/-- Registry offering `emptyAddrProvider` under every name. -/
def regEmptyAddrs : Registry := fun _ => some emptyAddrProvider

/-- Registry with no providers at all. -/
def regAbsent : Registry := fun _ => none

/-- A provider whose handle reports network id 1 (mainnet) — a mismatch under
`propsD` (testnet). -/
def wrongNetProvider : CardanoProvider :=
  ⟨fun _ => .ok ⟨.ok 1, fun _ => .ok ["s"], 0⟩⟩

/-- Registry offering `wrongNetProvider` under every name. -/
def regWrongNet : Registry := fun _ => some wrongNetProvider

/-- A well-behaved provider: right network, one stake address. -/
def okProvider : CardanoProvider :=
  ⟨fun _ => .ok ⟨.ok 0, fun _ => .ok ["stake1abc"], 3⟩⟩

/-- Registry offering `okProvider` under every name. -/
def regOk : Registry := fun _ => some okProvider

/-- A reward-address query stub that always fails with an upper-cased
"ACCOUNT CHANGED" message. -/
def qUpper : Nat → Except String (List String) := fun _ => .error "ACCOUNT CHANGED"

/-- A concrete connected handle used by the disconnect fixtures. -/
def apiFix : CardanoWalletApi := ⟨.ok 0, fun _ => .ok ["stake1abc"], 0⟩

/-- A session that is Connected with stake address "stake1abc". -/
def connectedState : ComponentState :=
  ⟨⟨true, some "w", some apiFix, some "stake1abc"⟩, false, none, false, none, none⟩

/-- A session in the middle of a negotiation (`isConnecting = true`). -/
def connectingState : ComponentState :=
  ⟨⟨false, none, none, none⟩, true, none, true, some "w", none⟩

/-- Original handle for the re-enable scenario: right network, every
reward-address query rejects with "account changed". -/
def apiOrigFix : CardanoWalletApi := ⟨.ok 0, fun _ => .error "account changed", 0⟩

/-- Fresh handle obtained by the re-enable: its query succeeds. -/
def apiFreshFix : CardanoWalletApi := ⟨.ok 0, fun _ => .ok ["stake1abc"], 1⟩

/-- Provider yielding `apiOrigFix` on the first `enable()` and `apiFreshFix` on
the re-enable. -/
def provTwoHandles : CardanoProvider :=
  ⟨fun n => if n = 0 then .ok apiOrigFix else .ok apiFreshFix⟩

/-- Registry offering `provTwoHandles` under every name. -/
def regTwoHandles : Registry := fun _ => some provTwoHandles

/-!  ## Helper lemmas about the retry loop  -/

/-- A transient failure with remaining budget consumes one attempt and loops. -/
theorem fetchGo_step (q : Nat → Except String (List String))
    (re : Except String (Except String (List String))) (r a : Nat) (m : String)
    (e : q a = .error m) (hm : accountChangedMsg m = true) (hr : 0 < r) :
    fetchGo q re (r + 1) a = fetchGo q re r (a + 1) := by
  simp [fetchGo, e, hm, hr]

/-- A successful query terminates the loop at once. -/
theorem fetchGo_success (q : Nat → Except String (List String))
    (re : Except String (Except String (List String))) (r a : Nat) (addrs : List String)
    (e : q a = .ok addrs) :
    fetchGo q re (r + 1) a = ⟨.ok addrs, a + 1, 0, 0⟩ := by
  simp [fetchGo, e]

/-- A transient failure on the last budgeted attempt triggers the re-enable
path; when the re-enable resolves, the fresh query's result is returned as-is. -/
theorem fetchGo_exhaust (q : Nat → Except String (List String))
    (freshRes : Except String (List String)) (a : Nat) (m : String)
    (e : q a = .error m) (hm : accountChangedMsg m = true) :
    fetchGo q (.ok freshRes) 1 a = ⟨freshRes, a + 1, 1, 1⟩ := by
  show fetchGo q (.ok freshRes) (0 + 1) a = _
  cases freshRes <;> simp [fetchGo, e, hm]

/-- The loop makes at least one query whenever it has budget. -/
theorem fetchGo_origQueries_ge (q : Nat → Except String (List String))
    (re : Except String (Except String (List String))) :
    ∀ r a, 0 < r → a + 1 ≤ (fetchGo q re r a).origQueries := by
  intro r
  induction r with
  | zero => intro a h; exact absurd h (by omega)
  | succ n ih =>
      intro a _
      cases hq : q a with
      | ok addrs => simp [fetchGo, hq]
      | error msg =>
          by_cases hm : accountChangedMsg msg = true
          · by_cases hn : 0 < n
            · have h2 := ih (a + 1) hn
              simp only [fetchGo, hq, hm, if_pos hn, if_true]
              omega
            · have hn0 : n = 0 := by omega
              subst hn0
              simp only [fetchGo, hq, hm, if_true]
              cases re with
              | error m => simp
              | ok r2 => cases r2 <;> simp
          · simp [fetchGo, hq, hm]

/-- When every query on the original handle rejects with an account-changed
message, the loop spends its three attempts, re-enables once, performs one
fresh query, and returns that query's result unchanged. -/
theorem fetch_allFail (q : Nat → Except String (List String))
    (freshRes : Except String (List String))
    (h : ∀ n, n < 3 → ∃ m, q n = .error m ∧ accountChangedMsg m = true) :
    rewardAddressFetch q (.ok freshRes) = ⟨freshRes, 3, 1, 1⟩ := by
  obtain ⟨m0, e0, a0⟩ := h 0 (by omega)
  obtain ⟨m1, e1, a1⟩ := h 1 (by omega)
  obtain ⟨m2, e2, a2⟩ := h 2 (by omega)
  have s1 : fetchGo q (.ok freshRes) 3 0 = fetchGo q (.ok freshRes) 2 1 :=
    fetchGo_step q (.ok freshRes) 2 0 m0 e0 a0 (by omega)
  have s2 : fetchGo q (.ok freshRes) 2 1 = fetchGo q (.ok freshRes) 1 2 :=
    fetchGo_step q (.ok freshRes) 1 1 m1 e1 a1 (by omega)
  have s3 : fetchGo q (.ok freshRes) 1 2 = ⟨freshRes, 3, 1, 1⟩ :=
    fetchGo_exhaust q freshRes 2 m2 e2 a2
  show fetchGo q (.ok freshRes) 3 0 = _
  rw [s1, s2, s3]

/-!  ## Claim theorems  -/

/-- Claim C2: for a reward-address query stub that fails with an
"account changed" message on every attempt, the loop makes exactly 3 queries on
the original handle, re-enables exactly once, performs exactly one final query
against the fresh handle, and returns that query's result (success or failure)
as-is with no further retry. -/
theorem fetch_exhausted_single_reenable (q : Nat → Except String (List String))
    (freshRes : Except String (List String))
    (h : ∀ n, ∃ m, q n = .error m ∧ accountChangedMsg m = true) :
    rewardAddressFetch q (.ok freshRes) = ⟨freshRes, 3, 1, 1⟩ :=
  fetch_allFail q freshRes (fun n _ => h n)

/-- Witness for C2 at a concrete always-failing stub and a succeeding fresh
query. -/
theorem fetch_exhausted_single_reenable_witness :
    rewardAddressFetch (fun _ => .error "account changed") (.ok (.ok ["stake1x"]))
      = ⟨.ok ["stake1x"], 3, 1, 1⟩ :=
  fetch_exhausted_single_reenable (fun _ => .error "account changed") (.ok ["stake1x"])
    (fun _ => ⟨"account changed", rfl, rfl⟩)

/-- Claim C3: a stub that fails with an "account changed" message exactly twice
and then succeeds is fully recovered inside the 3-attempt budget: the success
is returned and the re-enable callback is never invoked. -/
theorem fetch_recovers_within_budget (q : Nat → Except String (List String))
    (re : Except String (Except String (List String))) (m0 m1 : String)
    (addrs : List String)
    (h0 : q 0 = .error m0) (a0 : accountChangedMsg m0 = true)
    (h1 : q 1 = .error m1) (a1 : accountChangedMsg m1 = true)
    (h2 : q 2 = .ok addrs) :
    rewardAddressFetch q re = ⟨.ok addrs, 3, 0, 0⟩ := by
  have s1 : fetchGo q re 3 0 = fetchGo q re 2 1 :=
    fetchGo_step q re 2 0 m0 h0 a0 (by omega)
  have s2 : fetchGo q re 2 1 = fetchGo q re 1 2 :=
    fetchGo_step q re 1 1 m1 h1 a1 (by omega)
  have s3 : fetchGo q re 1 2 = ⟨.ok addrs, 3, 0, 0⟩ :=
    fetchGo_success q re 0 2 addrs h2
  show fetchGo q re 3 0 = _
  rw [s1, s2, s3]

/-- Witness for C3 at a concrete twice-failing stub. -/
theorem fetch_recovers_within_budget_witness :
    rewardAddressFetch
        (fun n => if n < 2 then .error "Account changed" else .ok ["stake1x"])
        (.error "reenable rejected")
      = ⟨.ok ["stake1x"], 3, 0, 0⟩ :=
  fetch_recovers_within_budget _ _ "Account changed" "Account changed" ["stake1x"]
    rfl rfl rfl rfl rfl

/-- Claim C4 counterexample: the message "ACCOUNT CHANGED" contains
"account changed" when compared case-insensitively, yet the loop propagates it
immediately — one query, no retry, no re-enable — because the code only checks
the two literal casings "account changed" and "Account changed". -/
theorem uppercase_account_changed_propagates :
    strContains (lowerString "ACCOUNT CHANGED") "account changed" = true
    ∧ accountChangedMsg "ACCOUNT CHANGED" = false
    ∧ rewardAddressFetch qUpper (.ok (.ok ["stake1x"]))
        = ⟨.error "ACCOUNT CHANGED", 1, 0, 0⟩ :=
  ⟨rfl, rfl, rfl⟩

/-- Claim C4 (amended): a first failure whose message contains one of the two
literal substrings "account changed" / "Account changed" is treated as the
transient condition — the loop does not propagate it immediately but performs
at least a second query. -/
theorem exact_case_account_changed_retries (q : Nat → Except String (List String))
    (re : Except String (Except String (List String))) (m : String)
    (h0 : q 0 = .error m) (hm : accountChangedMsg m = true) :
    2 ≤ (rewardAddressFetch q re).origQueries := by
  have s1 : fetchGo q re 3 0 = fetchGo q re 2 1 :=
    fetchGo_step q re 2 0 m h0 hm (by omega)
  have h2 := fetchGo_origQueries_ge q re 2 1 (by omega)
  show 2 ≤ (fetchGo q re 3 0).origQueries
  rw [s1]
  omega

/-- Witness for the amended C4 at a concrete stub. -/
theorem exact_case_account_changed_retries_witness :
    2 ≤ (rewardAddressFetch (fun _ => .error "Account changed") (.error "x")).origQueries :=
  exact_case_account_changed_retries (fun _ => .error "Account changed") (.error "x")
    "Account changed" rfl rfl

/-- Claim C5: `showErrorOnce` emits exactly when there is no remembered pair,
the remembered message differs, or strictly more than 1000 ms have elapsed
since the remembered timestamp; on emit the remembered pair becomes
`(message, now)`, otherwise it is unchanged. -/
theorem showErrorOnce_characterization (m : String) (t : Nat)
    (st : Option (String × Nat)) :
    ((showErrorOnce m t st).1 = true ↔ reportShouldEmit m t st)
    ∧ ((showErrorOnce m t st).1 = true → (showErrorOnce m t st).2 = some (m, t))
    ∧ ((showErrorOnce m t st).1 = false → (showErrorOnce m t st).2 = st) := by
  match st with
  | none => simp [showErrorOnce, reportShouldEmit]
  | some (m0, t0) =>
      by_cases h : m0 ≠ m ∨ t - t0 > 1000
      · simp [showErrorOnce, reportShouldEmit, h]
      · simp [showErrorOnce, reportShouldEmit, h]

/-- Witness for C5: with no remembered pair the throttle emits and remembers
the new pair. -/
theorem showErrorOnce_characterization_witness :
    (showErrorOnce "X" 5 none).2 = some ("X", 5) :=
  (showErrorOnce_characterization "X" 5 none).2.1 rfl

/-- Claim C6 counterexample: selecting provider "alpha" absent from the
registry surfaces the not-installed message through the throttle to
`showError`, but `connectionError` (the session's `lastError`) is left empty —
the failure is NOT simultaneously recorded. -/
theorem not_installed_error_not_recorded :
    ((onConnectWallet propsD regAbsent "alpha" 0 (initialState propsD) fx0).1.connectionError
        = none)
    ∧ ((onConnectWallet propsD regAbsent "alpha" 0 (initialState propsD) fx0).2.showErrorCalls
        = [notInstalledMsg "alpha"]) :=
  ⟨rfl, rfl⟩

/-- Claim C6 (amended): a NotInstalled failure in the internal negotiator is
surfaced exactly once via the throttle to `showError`, but is not recorded in
`connectionError`; the negotiation ends with the connecting flags cleared. -/
theorem not_installed_shown_not_recorded (props : ConnectorProps) (registry : Registry)
    (name : String) (now : Nat) (s : ComponentState) (fx : Effects)
    (hreg : registry name = none) (hth : s.lastErrorRef = none) :
    ((onConnectWallet props registry name now s fx).1.connectionError = none)
    ∧ ((onConnectWallet props registry name now s fx).2.showErrorCalls
        = fx.showErrorCalls ++ [notInstalledMsg name])
    ∧ ((onConnectWallet props registry name now s fx).1.isConnecting = false)
    ∧ ((onConnectWallet props registry name now s fx).1.pendingWallet = none) := by
  simp [onConnectWallet, hreg, showErrorOnceM, showErrorOnce, hth]

/-- Witness for the amended C6 at the concrete empty registry. -/
theorem not_installed_shown_not_recorded_witness :
    ((onConnectWallet propsD regAbsent "alpha" 7 (initialState propsD) fx0).1.connectionError
        = none)
    ∧ ((onConnectWallet propsD regAbsent "alpha" 7 (initialState propsD) fx0).2.showErrorCalls
        = fx0.showErrorCalls ++ [notInstalledMsg "alpha"])
    ∧ ((onConnectWallet propsD regAbsent "alpha" 7 (initialState propsD) fx0).1.isConnecting
        = false)
    ∧ ((onConnectWallet propsD regAbsent "alpha" 7 (initialState propsD) fx0).1.pendingWallet
        = none) :=
  not_installed_shown_not_recorded propsD regAbsent "alpha" 7 (initialState propsD) fx0
    rfl rfl

/-- Claim C7 counterexample: for the same WrongNetwork condition on the same
provider "beta", the internal negotiation path and the widget's failure
callback emit different `showError` texts. -/
theorem wrong_network_texts_differ :
    ((onConnectWallet propsD regWrongNet "beta" 0 (initialState propsD) fx0).2.showErrorCalls
        = [wrongNetworkMsgInternal false])
    ∧ ((onConnectError propsD "beta" "wrong network" 0 (initialState propsD) fx0).2.showErrorCalls
        = [wrongNetworkMsgWidget false])
    ∧ wrongNetworkMsgInternal false ≠ wrongNetworkMsgWidget false :=
  ⟨rfl, rfl, by decide⟩

/-- Claim C7 (amended): the two error paths converge on identical user-facing
text for the NotInstalled category only — both emit exactly
`notInstalledMsg name` and record nothing in `connectionError`; for
WrongNetwork (and Generic) the texts differ, as the counterexample shows. -/
theorem not_installed_texts_converge (props : ConnectorProps) (registry : Registry)
    (name msg : String) (now : Nat) (s : ComponentState) (fx : Effects)
    (hreg : registry name = none) (hth : s.lastErrorRef = none)
    (hce : s.connectionError = none)
    (hmsg : strContains (lowerString msg) "not installed" = true) :
    ((onConnectWallet props registry name now s fx).2.showErrorCalls
        = (onConnectError props name msg now s fx).2.showErrorCalls)
    ∧ ((onConnectWallet props registry name now s fx).2.showErrorCalls
        = fx.showErrorCalls ++ [notInstalledMsg name])
    ∧ ((onConnectWallet props registry name now s fx).1.connectionError
        = (onConnectError props name msg now s fx).1.connectionError) := by
  simp [onConnectWallet, onConnectError, hreg, hmsg, showErrorOnceM, showErrorOnce,
    hth, hce]

/-- Witness for the amended C7 at a concrete absent provider and a concrete
widget message. -/
theorem not_installed_texts_converge_witness :
    ((onConnectWallet propsD regAbsent "gamma" 0 (initialState propsD) fx0).2.showErrorCalls
        = (onConnectError propsD "gamma" "wallet not installed" 0 (initialState propsD)
            fx0).2.showErrorCalls)
    ∧ ((onConnectWallet propsD regAbsent "gamma" 0 (initialState propsD) fx0).2.showErrorCalls
        = fx0.showErrorCalls ++ [notInstalledMsg "gamma"])
    ∧ ((onConnectWallet propsD regAbsent "gamma" 0 (initialState propsD) fx0).1.connectionError
        = (onConnectError propsD "gamma" "wallet not installed" 0 (initialState propsD)
            fx0).1.connectionError) :=
  not_installed_texts_converge propsD regAbsent "gamma" "wallet not installed" 0
    (initialState propsD) fx0 rfl rfl rfl rfl

/-- Claim C8 counterexample: from a Connected session, `handleDisconnect`
invokes `onDisconnect` once; calling it again — the session now being
disconnected — invokes `onDisconnect` a second time rather than being a no-op. -/
theorem disconnect_twice_double_callback :
    ((handleDisconnect propsD connectedState fx0).1.walletState.isConnected = false)
    ∧ ((handleDisconnect propsD connectedState fx0).2.onDisconnectCalls = 1)
    ∧ ((handleDisconnect propsD (handleDisconnect propsD connectedState fx0).1
          (handleDisconnect propsD connectedState fx0).2).2.onDisconnectCalls = 2) :=
  ⟨rfl, rfl, rfl⟩

/-- Claim C8 (amended): when the `onDisconnect` prop is supplied,
`handleDisconnect` clears the wallet state and invokes the callback once per
invocation, regardless of whether the session was Connected — so a second call
invokes it again. -/
theorem disconnect_unconditional_callback (props : ConnectorProps) (s : ComponentState)
    (fx : Effects) (h : props.onDisconnectSet = true) :
    ((handleDisconnect props s fx).1.walletState.isConnected = false)
    ∧ ((handleDisconnect props s fx).1.walletState.stakeAddress = none)
    ∧ ((handleDisconnect props s fx).2.onDisconnectCalls = fx.onDisconnectCalls + 1)
    ∧ ((handleDisconnect props (handleDisconnect props s fx).1
          (handleDisconnect props s fx).2).2.onDisconnectCalls
        = fx.onDisconnectCalls + 2) := by
  simp [handleDisconnect, h]

/-- Witness for the amended C8 at the concrete Connected fixture. -/
theorem disconnect_unconditional_callback_witness :
    ((handleDisconnect propsD connectedState fx0).1.walletState.isConnected = false)
    ∧ ((handleDisconnect propsD connectedState fx0).1.walletState.stakeAddress = none)
    ∧ ((handleDisconnect propsD connectedState fx0).2.onDisconnectCalls
        = fx0.onDisconnectCalls + 1)
    ∧ ((handleDisconnect propsD (handleDisconnect propsD connectedState fx0).1
          (handleDisconnect propsD connectedState fx0).2).2.onDisconnectCalls
        = fx0.onDisconnectCalls + 2) :=
  disconnect_unconditional_callback propsD connectedState fx0 rfl

/-- Claim C9 counterexample: invoking `onConnectWallet` while a negotiation is
already in flight (`isConnecting = true`) is not rejected: it performs provider
calls (`enable` once, one reward-address query) and changes the session state
to Connected. -/
theorem reentrant_connect_proceeds :
    (connectingState.isConnecting = true)
    ∧ ((onConnectWallet propsD regOk "w" 0 connectingState fx0).1.walletState.isConnected
        = true)
    ∧ ((onConnectWallet propsD regOk "w" 0 connectingState fx0).2.enableCalls = 1)
    ∧ ((onConnectWallet propsD regOk "w" 0 connectingState fx0).2.rewardQueryCalls = 1) :=
  ⟨rfl, rfl, rfl, rfl⟩

/-- Claim C9 (amended): the negotiation entry point contains no re-entrancy
guard — its result is entirely independent of the `isConnecting` flag, so an
invocation while Connecting behaves exactly as one while idle.  (Re-entrancy is
discouraged only by the UI disabling the trigger buttons while connecting.) -/
theorem onConnectWallet_ignores_isConnecting (props : ConnectorProps)
    (registry : Registry) (name : String) (now : Nat) (s : ComponentState)
    (fx : Effects) (b : Bool) :
    onConnectWallet props registry name now { s with isConnecting := b } fx
      = onConnectWallet props registry name now s fx :=
  rfl

/-- Claim C10: when the retry budget is exhausted and the re-enable path
succeeds, the handle stored in the session and passed to `onConnect` is the
original one from the first `enable()` — only the address list comes from the
fresh handle — and `enable` was called exactly twice in total. -/
theorem reenable_keeps_original_handle (props : ConnectorProps) (registry : Registry)
    (name : String) (now : Nat) (s : ComponentState) (fx : Effects)
    (p : CardanoProvider) (apiO apiF : CardanoWalletApi) (addrs : List String)
    (hreg : registry name = some p)
    (hen0 : p.enable 0 = .ok apiO)
    (hnet : apiO.getNetworkId = .ok (if props.mainnet then 1 else 0))
    (hq : ∀ n, n < 3 → ∃ m, apiO.getRewardAddresses n = .error m
            ∧ accountChangedMsg m = true)
    (hen1 : p.enable 1 = .ok apiF)
    (hfq : apiF.getRewardAddresses 0 = .ok addrs)
    (hcb : props.onConnectSet = true) :
    ((onConnectWallet props registry name now s fx).1.walletState.walletApi = some apiO)
    ∧ ((onConnectWallet props registry name now s fx).2.onConnectCalls
        = fx.onConnectCalls ++ [(name, apiO.tag, firstOrNone addrs)])
    ∧ ((onConnectWallet props registry name now s fx).1.walletState.stakeAddress
        = firstOrNone addrs)
    ∧ ((onConnectWallet props registry name now s fx).2.enableCalls
        = fx.enableCalls + 2) := by
  have hre : reEnableOf p = .ok (.ok addrs) := by
    simp [reEnableOf, hen1, hfq]
  have hfetch : rewardAddressFetch apiO.getRewardAddresses (reEnableOf p)
      = ⟨.ok addrs, 3, 1, 1⟩ := by
    rw [hre]
    exact fetch_allFail apiO.getRewardAddresses (.ok addrs) hq
  simp [onConnectWallet, hreg, hen0, hnet, hfetch, handleSuccessfulConnect, hcb]

/-- Witness for C10 at the two-handle fixture: the stored handle keeps tag 0
(the original), while the stake address comes from the fresh handle's list. -/
theorem reenable_keeps_original_handle_witness :
    ((onConnectWallet propsD regTwoHandles "w" 0 (initialState propsD) fx0).1.walletState.walletApi
        = some apiOrigFix)
    ∧ ((onConnectWallet propsD regTwoHandles "w" 0 (initialState propsD) fx0).2.onConnectCalls
        = fx0.onConnectCalls ++ [("w", apiOrigFix.tag, firstOrNone ["stake1abc"])])
    ∧ ((onConnectWallet propsD regTwoHandles "w" 0 (initialState propsD) fx0).1.walletState.stakeAddress
        = firstOrNone ["stake1abc"])
    ∧ ((onConnectWallet propsD regTwoHandles "w" 0 (initialState propsD) fx0).2.enableCalls
        = fx0.enableCalls + 2) :=
  reenable_keeps_original_handle propsD regTwoHandles "w" 0 (initialState propsD) fx0
    provTwoHandles apiOrigFix apiFreshFix ["stake1abc"] rfl rfl rfl
    (fun _ _ => ⟨"account changed", rfl, rfl⟩) rfl rfl rfl

/-- Claim C1 counterexample: a successful negotiation against a provider that
reports an empty reward-address list ends Connected with the capability handle
present but `stakeAddress` absent — so "capabilityHandle and stakeAddress are
both present iff Connected" fails, as does "after every successful negotiation
stakeAddress is present". -/
theorem connected_without_stake_counterexample :
    ((onConnectWallet propsD regEmptyAddrs "w" 0 (initialState propsD)
        fx0).1.walletState.isConnected = true)
    ∧ ((onConnectWallet propsD regEmptyAddrs "w" 0 (initialState propsD)
        fx0).1.walletState.stakeAddress = none)
    ∧ ((onConnectWallet propsD regEmptyAddrs "w" 0 (initialState propsD)
        fx0).1.walletState.walletApi.isSome = true) :=
  ⟨rfl, rfl, rfl⟩

/-- Claim C1 (amended): every component event preserves the invariant that the
capability handle and the wallet name are present exactly when the session is
Connected, and that a stake address is present only while Connected — it may
be absent when Connected, namely when the provider reported no addresses. -/
theorem sessionInv_preserved (props : ConnectorProps) (registry : Registry)
    (a : Action) (s : ComponentState) (fx : Effects)
    (h : sessionInv s.walletState) :
    sessionInv (stepA props registry a s fx).1.walletState := by
  cases a with
  | openList =>
      simp only [stepA, openWalletList]
      split <;> exact h
  | closeList =>
      simp only [stepA, closeWalletList]
      split <;> exact h
  | clickOutside =>
      simp only [stepA, handleClickOutside]
      split <;> exact h
  | disconnect =>
      simp [stepA, handleDisconnect, sessionInv]
  | widgetError n m t =>
      simp only [stepA, onConnectError, showErrorOnceM]
      repeat' split
      all_goals exact h
  | connect n t =>
      simp only [stepA, onConnectWallet, showErrorOnceM, handleSuccessfulConnect]
      repeat' split
      all_goals first
        | exact h
        | exact ⟨by simp, by simp⟩

/-- Witness for the amended C1: the invariant holds in the initial state and is
preserved by a concrete connect event. -/
theorem sessionInv_preserved_witness :
    sessionInv (stepA propsD regOk (Action.connect "w" 0) (initialState propsD)
      fx0).1.walletState :=
  sessionInv_preserved propsD regOk (Action.connect "w" 0) (initialState propsD) fx0
    (by simp [initialState, sessionInv])

end WalletConnector
